import Mathlib

/-!
Verification of the trajectory-integrator core of the `enigma` ballistic
calculator (src/src/main.rs). The numeric core — `drag_force`,
`update_velocity`, `update_position` — and the `on_submit` fire handler are
embedded shallowly over the real numbers; the `f64` arithmetic of the source
is modelled by exact real arithmetic.
-/

namespace Enigma

/-- Struct `Vector2` from main.rs lines 14-18: a pair of scalars. -/
structure Vector2 where
  x : ℝ
  y : ℝ

/-- Struct `Projectile` from main.rs lines 20-24: position and velocity. -/
structure Projectile where
  position : Vector2
  velocity : Vector2

/-- Function `drag_force` from main.rs lines 27-31:
`drag_coefficient = 1.0 / (ballistic_coefficient * caliber.powi(2))`,
`air_density = 1.225`, result `-0.5 * drag_coefficient * air_density * v.powi(2)`. -/
noncomputable def drag_force (v caliber ballistic_coefficient : ℝ) : ℝ :=
  let drag_coefficient := 1.0 / (ballistic_coefficient * caliber ^ 2)
  let air_density := (1.225 : ℝ)
  (-0.5) * drag_coefficient * air_density * v ^ 2

/-- Function `update_velocity` from main.rs lines 33-43: compute the speed
`v = sqrt(vx^2 + vy^2)`; when `v != 0.0` add `acceleration * dt` to each
velocity component, where `acceleration_x = wind + drag * vx / v` and
`acceleration_y = -9.81 + drag * vy / v` with `drag = drag_force v ...`;
when `v == 0.0` the projectile is left untouched. -/
noncomputable def update_velocity (projectile : Projectile)
    (dt wind caliber ballistic_coefficient : ℝ) : Projectile :=
  let v := Real.sqrt (projectile.velocity.x ^ 2 + projectile.velocity.y ^ 2)
  if v ≠ 0 then
    let drag := drag_force v caliber ballistic_coefficient
    let acceleration_x := wind + drag * projectile.velocity.x / v
    let acceleration_y := -9.81 + drag * projectile.velocity.y / v
    { projectile with
        velocity :=
          { x := projectile.velocity.x + acceleration_x * dt
            y := projectile.velocity.y + acceleration_y * dt } }
  else
    projectile

/-- Function `update_position` from main.rs lines 45-48: add `velocity * dt` to each
position component. -/
noncomputable def update_position (projectile : Projectile) (dt : ℝ) : Projectile :=
  { projectile with
      position :=
        { x := projectile.position.x + projectile.velocity.x * dt
          y := projectile.position.y + projectile.velocity.y * dt } }

/-- The effect of `on_submit` (main.rs lines 115-146) on the projectile state:
velocity is replaced by `(850 * cos(elevation * pi / 180), 850 * sin(elevation * pi / 180))`.
The handler copies the current projectile, overwrites only its `velocity`
field, and stores it back; the `position` field is carried over as is.
(The rapier3d rigid-body scaffolding built afterwards never feeds back into
the displayed projectile and is omitted.) -/
noncomputable def on_submit (elevation : ℝ) (projectile : Projectile) : Projectile :=
  let new_velocity : Vector2 :=
    { x := 850.0 * Real.cos (elevation * Real.pi / 180.0)
      y := 850.0 * Real.sin (elevation * Real.pi / 180.0) }
  { projectile with velocity := new_velocity }

/-- One tick of the `use_interval` body (main.rs lines 151-165) with the
time step left as a parameter: `update_velocity` then `update_position`
on the same projectile value. The source fixes `dt = 0.01`. -/
noncomputable def interval_step (projectile : Projectile)
    (dt wind caliber ballistic_coefficient : ℝ) : Projectile :=
  update_position (update_velocity projectile dt wind caliber ballistic_coefficient) dt

/-- The speed `sqrt(vx^2 + vy^2)` vanishes exactly when both components do. -/
theorem sqrt_sq_add_sq_eq_zero_iff (a b : ℝ) :
    Real.sqrt (a ^ 2 + b ^ 2) = 0 ↔ a = 0 ∧ b = 0 := by
  rw [Real.sqrt_eq_zero (by positivity)]
  constructor
  · intro h
    constructor
    · nlinarith [sq_nonneg a, sq_nonneg b]
    · nlinarith [sq_nonneg a, sq_nonneg b]
  · rintro ⟨ha, hb⟩
    simp [ha, hb]

/-- C2: `drag_force speed caliber ballistic_coefficient` equals
`-0.5 * (1 / (ballistic_coefficient * caliber^2)) * 1.225 * speed^2`:
the drag coefficient is `k = 1 / (ballistic_coefficient * caliber^2)` and the
result is `-0.5 * k * 1.225 * speed^2`. -/
theorem drag_force_closed_form (speed caliber ballistic_coefficient : ℝ) :
    drag_force speed caliber ballistic_coefficient
      = -0.5 * (1 / (ballistic_coefficient * caliber ^ 2)) * 1.225 * speed ^ 2 := by
  simp only [drag_force]
  norm_num

/-- Helper: `update_velocity` never writes the `position` field, in either
branch of the speed test. -/
theorem update_velocity_preserves_position (p : Projectile)
    (dt wind caliber ballistic_coefficient : ℝ) :
    (update_velocity p dt wind caliber ballistic_coefficient).position = p.position := by
  simp only [update_velocity]
  split <;> rfl

/-- C1: for a projectile whose velocity is not the zero vector,
`update_velocity` sets the new velocity to
`(vx + (wind + drag * vx / v) * dt, vy + (-9.81 + drag * vy / v) * dt)`
where `v = sqrt(vx^2 + vy^2)` and `drag = drag_force v caliber ballistic_coefficient`. -/
theorem update_velocity_nonzero_formula (p : Projectile)
    (dt wind caliber ballistic_coefficient : ℝ)
    (h : ¬ (p.velocity.x = 0 ∧ p.velocity.y = 0)) :
    (update_velocity p dt wind caliber ballistic_coefficient).velocity.x
        = p.velocity.x
          + (wind
              + drag_force (Real.sqrt (p.velocity.x ^ 2 + p.velocity.y ^ 2))
                  caliber ballistic_coefficient
                * p.velocity.x / Real.sqrt (p.velocity.x ^ 2 + p.velocity.y ^ 2)) * dt
  ∧ (update_velocity p dt wind caliber ballistic_coefficient).velocity.y
        = p.velocity.y
          + (-9.81
              + drag_force (Real.sqrt (p.velocity.x ^ 2 + p.velocity.y ^ 2))
                  caliber ballistic_coefficient
                * p.velocity.y / Real.sqrt (p.velocity.x ^ 2 + p.velocity.y ^ 2)) * dt := by
  have hv : Real.sqrt (p.velocity.x ^ 2 + p.velocity.y ^ 2) ≠ 0 := by
    rw [Ne, sqrt_sq_add_sq_eq_zero_iff]
    exact h
  simp only [update_velocity]
  rw [if_pos hv]
  exact ⟨rfl, rfl⟩

/-- Witness for C1 at velocity `(3, 4)`, `dt = 1`, `wind = 0`, `caliber = 1`,
`ballistic_coefficient = 1`. -/
theorem update_velocity_nonzero_formula_witness :
    (¬ ((3 : ℝ) = 0 ∧ (4 : ℝ) = 0))
  ∧ ((update_velocity ⟨⟨0, 0⟩, ⟨3, 4⟩⟩ 1 0 1 1).velocity.x
        = 3 + (0 + drag_force (Real.sqrt ((3 : ℝ) ^ 2 + (4 : ℝ) ^ 2)) 1 1
                  * 3 / Real.sqrt ((3 : ℝ) ^ 2 + (4 : ℝ) ^ 2)) * 1
      ∧ (update_velocity ⟨⟨0, 0⟩, ⟨3, 4⟩⟩ 1 0 1 1).velocity.y
        = 4 + (-9.81 + drag_force (Real.sqrt ((3 : ℝ) ^ 2 + (4 : ℝ) ^ 2)) 1 1
                  * 4 / Real.sqrt ((3 : ℝ) ^ 2 + (4 : ℝ) ^ 2)) * 1) :=
  ⟨by norm_num,
   update_velocity_nonzero_formula ⟨⟨0, 0⟩, ⟨3, 4⟩⟩ 1 0 1 1 (by norm_num)⟩

/-- Counterexample to C3 as stated: firing with elevation `0` from a
projectile currently at position `(1, 2)` leaves the position at `(1, 2)`;
it is not reset to `(0, 0)`. -/
theorem on_submit_position_not_reset_cex :
    (on_submit 0 ⟨⟨1, 2⟩, ⟨0, 0⟩⟩).position.x ≠ 0 := by
  norm_num [on_submit]

/-- C3 (amended): the fire handler sets velocity to
`(850 * cos(theta), 850 * sin(theta))` with `theta = elevation * pi / 180`,
and leaves the position unchanged (it does not reset it to `(0, 0)`). -/
theorem on_submit_sets_velocity_keeps_position (elevation : ℝ) (p : Projectile) :
    (on_submit elevation p).velocity.x = 850 * Real.cos (elevation * Real.pi / 180)
  ∧ (on_submit elevation p).velocity.y = 850 * Real.sin (elevation * Real.pi / 180)
  ∧ (on_submit elevation p).position = p.position := by
  refine ⟨?_, ?_, rfl⟩ <;> norm_num [on_submit]

/-- C4: a projectile with velocity exactly `(0, 0)` is returned completely
unchanged by `update_velocity`, whatever `dt`, `wind`, `caliber` and
`ballistic_coefficient` are: no gravity or wind is applied and the position
is untouched. -/
theorem update_velocity_zero_velocity (p : Projectile)
    (dt wind caliber ballistic_coefficient : ℝ)
    (hx : p.velocity.x = 0) (hy : p.velocity.y = 0) :
    update_velocity p dt wind caliber ballistic_coefficient = p := by
  simp [update_velocity, hx, hy]

/-- Witness for C4 at position `(5, 7)`, velocity `(0, 0)`, `dt = 2`,
`wind = 3`, `caliber = 1`, `ballistic_coefficient = 1`. -/
theorem update_velocity_zero_velocity_witness :
    ((0 : ℝ) = 0 ∧ (0 : ℝ) = 0)
  ∧ update_velocity ⟨⟨5, 7⟩, ⟨0, 0⟩⟩ 2 3 1 1 = ⟨⟨5, 7⟩, ⟨0, 0⟩⟩ :=
  ⟨⟨rfl, rfl⟩, update_velocity_zero_velocity ⟨⟨5, 7⟩, ⟨0, 0⟩⟩ 2 3 1 1 rfl rfl⟩

/-- C5: `update_position` adds `velocity * dt` to the position componentwise,
and a full interval step (`update_velocity` then `update_position`) moves the
position by `dt` times the velocity produced by that same step, i.e. the new
velocity, not the pre-step one. -/
theorem step_position_uses_new_velocity (p : Projectile)
    (dt wind caliber ballistic_coefficient : ℝ) :
    ((update_position p dt).position.x = p.position.x + p.velocity.x * dt
      ∧ (update_position p dt).position.y = p.position.y + p.velocity.y * dt)
  ∧ ((interval_step p dt wind caliber ballistic_coefficient).position.x
        = p.position.x
          + (update_velocity p dt wind caliber ballistic_coefficient).velocity.x * dt
      ∧ (interval_step p dt wind caliber ballistic_coefficient).position.y
        = p.position.y
          + (update_velocity p dt wind caliber ballistic_coefficient).velocity.y * dt) := by
  refine ⟨⟨rfl, rfl⟩, ?_, ?_⟩ <;>
    simp only [interval_step, update_position,
      update_velocity_preserves_position p dt wind caliber ballistic_coefficient]

/-- C6: for positive caliber and ballistic coefficient and nonnegative speed,
`drag_force` is nonpositive, and it vanishes at speed `0`. -/
theorem drag_force_nonpos_and_zero_at_zero (speed caliber ballistic_coefficient : ℝ)
    (hc : 0 < caliber) (hb : 0 < ballistic_coefficient) (hs : 0 ≤ speed) :
    drag_force speed caliber ballistic_coefficient ≤ 0
  ∧ drag_force 0 caliber ballistic_coefficient = 0 := by
  constructor
  · simp only [drag_force]
    have hk : (0 : ℝ) < 1.0 / (ballistic_coefficient * caliber ^ 2) := by positivity
    nlinarith [mul_nonneg hk.le (sq_nonneg speed)]
  · simp [drag_force]

/-- Witness for C6 at `speed = 2`, `caliber = 1`, `ballistic_coefficient = 1`. -/
theorem drag_force_nonpos_and_zero_at_zero_witness :
    ((0 : ℝ) < 1 ∧ (0 : ℝ) < 1 ∧ (0 : ℝ) ≤ 2)
  ∧ (drag_force 2 1 1 ≤ 0 ∧ drag_force 0 1 1 = 0) :=
  ⟨by norm_num,
   drag_force_nonpos_and_zero_at_zero 2 1 1 (by norm_num) (by norm_num) (by norm_num)⟩

/-- C7: for fixed positive caliber and ballistic coefficient, `drag_force` is
monotonically non-increasing in speed on `speed ≥ 0`. -/
theorem drag_force_antitone_in_speed (caliber ballistic_coefficient s1 s2 : ℝ)
    (hc : 0 < caliber) (hb : 0 < ballistic_coefficient)
    (h1 : 0 ≤ s1) (h12 : s1 ≤ s2) :
    drag_force s2 caliber ballistic_coefficient
      ≤ drag_force s1 caliber ballistic_coefficient := by
  simp only [drag_force]
  have hk : (0 : ℝ) < 1.0 / (ballistic_coefficient * caliber ^ 2) := by positivity
  have hsq : s1 ^ 2 ≤ s2 ^ 2 := by nlinarith
  nlinarith [mul_le_mul_of_nonneg_left hsq hk.le]

/-- Witness for C7 at `s1 = 1`, `s2 = 2`, `caliber = 1`,
`ballistic_coefficient = 1`. -/
theorem drag_force_antitone_in_speed_witness :
    ((0 : ℝ) < 1 ∧ (0 : ℝ) < 1 ∧ (0 : ℝ) ≤ 1 ∧ (1 : ℝ) ≤ 2)
  ∧ drag_force 2 1 1 ≤ drag_force 1 1 1 :=
  ⟨by norm_num,
   drag_force_antitone_in_speed 1 1 1 2 (by norm_num) (by norm_num) (by norm_num)
     (by norm_num)⟩

/-- C9: `update_velocity` writes only the `velocity` field and
`update_position` writes only the `position` field of the projectile. -/
theorem update_ops_frame (p : Projectile) (dt wind caliber ballistic_coefficient : ℝ) :
    (update_velocity p dt wind caliber ballistic_coefficient).position = p.position
  ∧ (update_position p dt).velocity = p.velocity :=
  ⟨update_velocity_preserves_position p dt wind caliber ballistic_coefficient, rfl⟩

/-- C10: `drag_force` depends on the caliber only through its square, so it is
an even function of the caliber: a negative caliber behaves exactly like its
absolute value. -/
theorem drag_force_even_in_caliber (speed ballistic_coefficient c : ℝ) :
    drag_force speed (-c) ballistic_coefficient
      = drag_force speed c ballistic_coefficient := by
  simp only [drag_force]
  ring_nf

end Enigma
